import Mathlib

/-!
Verification of `src/CesiumForUnityNative/src/CesiumMetadataImpl.h`
(cesium-unity metadata subsystem).

The header defines three `std::variant` unions (`ValueType`, `PropertyType`,
`FeatureIDAccessorType`), a string-conversion function `getString` over
`ValueType`, and the class `CesiumMetadataImpl` owning the two collections
populated by `loadMetadata` (whose body is not part of the sources; it is
modelled from the specification where needed).

We embed the C++ type expressions appearing as variant alternatives as an
inductive `CppTy`, the runtime values of the unions as inductives carrying
payloads, and the CesiumGltf type traits used by `getString` as Boolean
functions on `CppTy`.
-/

namespace CesiumForUnityNative

/-- Element types appearing in the unions: the eight fixed-width integers,
the two floating-point widths, `bool`, and `std::string_view`. -/
inductive ElemTy where
  | int8_t
  | uint8_t
  | int16_t
  | uint16_t
  | int32_t
  | uint32_t
  | int64_t
  | uint64_t
  | float_t
  | double_t
  | bool_t
  | string_view_t
deriving DecidableEq, Repr

/-- C++ type expressions occurring as `std::variant` alternatives in the
header, plus `constRef t` for the type `const t&` (the type at which the
generic lambda inside `getString` is instantiated, see below). -/
inductive CppTy where
  | monostate
  | scalar (t : ElemTy)
  | metadataArrayView (t : ElemTy)
  | metadataPropertyView (t : CppTy)
  | accessorViewScalar (t : ElemTy)
  | constRef (t : CppTy)
deriving DecidableEq, Repr

/-- Trait `CesiumGltf::IsMetadataNumeric<T>::value` from the external
dependency CesiumGltf (PropertyTypeTraits.h): the primary template derives
from `std::false_type`; explicit specializations exist exactly for the bare
(unqualified, non-reference) types `int8_t`, `uint8_t`, `int16_t`,
`uint16_t`, `int32_t`, `uint32_t`, `int64_t`, `uint64_t`, `float`,
`double`. In particular a `const T&` reference type matches only the
primary template and yields `false`. -/
def isMetadataNumeric : CppTy → Bool
  | .scalar .int8_t => true
  | .scalar .uint8_t => true
  | .scalar .int16_t => true
  | .scalar .uint16_t => true
  | .scalar .int32_t => true
  | .scalar .uint32_t => true
  | .scalar .int64_t => true
  | .scalar .uint64_t => true
  | .scalar .float_t => true
  | .scalar .double_t => true
  | _ => false

/-- Trait `CesiumGltf::IsMetadataBoolean<T>::value`: specialized (to `true`)
only at the bare type `bool`; `false` at every other type, including
`const bool&`. -/
def isMetadataBoolean : CppTy → Bool
  | .scalar .bool_t => true
  | _ => false

/-- Trait `CesiumGltf::IsMetadataString<T>::value`: specialized (to `true`)
only at the bare type `std::string_view`; `false` at every other type,
including `const std::string_view&`. -/
def isMetadataString : CppTy → Bool
  | .scalar .string_view_t => true
  | _ => false

/-- Runtime values of the `ValueType` union (one constructor per
`std::variant` alternative, in declaration order). Signed integer payloads
are carried as `Int`, unsigned as `Nat`; the float alternatives carry their
32/64 raw bit patterns as `Nat` (no arithmetic is ever performed on them in
this header). `MetadataArrayView<T>` payloads are carried as the list of
viewed elements. -/
inductive ValueType where
  | monostate
  | int8 (v : Int)
  | uint8 (v : Nat)
  | int16 (v : Int)
  | uint16 (v : Nat)
  | int32 (v : Int)
  | uint32 (v : Nat)
  | int64 (v : Int)
  | uint64 (v : Nat)
  | float32 (bits : Nat)
  | float64 (bits : Nat)
  | boolean (v : Bool)
  | string (s : String)
  | arrayInt8 (a : List Int)
  | arrayUInt8 (a : List Nat)
  | arrayInt16 (a : List Int)
  | arrayUInt16 (a : List Nat)
  | arrayInt32 (a : List Int)
  | arrayUInt32 (a : List Nat)
  | arrayInt64 (a : List Int)
  | arrayUInt64 (a : List Nat)
  | arrayFloat32 (a : List Nat)
  | arrayFloat64 (a : List Nat)
  | arrayBoolean (a : List Bool)
  | arrayString (a : List String)
deriving DecidableEq, Repr

/-- The C++ type of the active alternative of a `ValueType` value. -/
def valueVariantTy : ValueType → CppTy
  | .monostate => .monostate
  | .int8 _ => .scalar .int8_t
  | .uint8 _ => .scalar .uint8_t
  | .int16 _ => .scalar .int16_t
  | .uint16 _ => .scalar .uint16_t
  | .int32 _ => .scalar .int32_t
  | .uint32 _ => .scalar .uint32_t
  | .int64 _ => .scalar .int64_t
  | .uint64 _ => .scalar .uint64_t
  | .float32 _ => .scalar .float_t
  | .float64 _ => .scalar .double_t
  | .boolean _ => .scalar .bool_t
  | .string _ => .scalar .string_view_t
  | .arrayInt8 _ => .metadataArrayView .int8_t
  | .arrayUInt8 _ => .metadataArrayView .uint8_t
  | .arrayInt16 _ => .metadataArrayView .int16_t
  | .arrayUInt16 _ => .metadataArrayView .uint16_t
  | .arrayInt32 _ => .metadataArrayView .int32_t
  | .arrayUInt32 _ => .metadataArrayView .uint32_t
  | .arrayInt64 _ => .metadataArrayView .int64_t
  | .arrayUInt64 _ => .metadataArrayView .uint64_t
  | .arrayFloat32 _ => .metadataArrayView .float_t
  | .arrayFloat64 _ => .metadataArrayView .double_t
  | .arrayBoolean _ => .metadataArrayView .bool_t
  | .arrayString _ => .metadataArrayView .string_view_t

/-- True exactly on the twelve array alternatives and the absent
(`std::monostate`) alternative of `ValueType`. -/
def isArrayOrAbsent (v : ValueType) : Bool :=
  match valueVariantTy v with
  | .monostate => true
  | .metadataArrayView _ => true
  | _ => false

/-- The `std::to_string(arg)` call in the numeric branch of the `getString`
lambda. At the integer alternatives it produces the decimal digits (with a
leading minus sign for negative values), which is what `toString` on
`Int`/`Nat` produces. At the two float alternatives `std::to_string`
renders with the C "%f" format; we do not model that rendering from the
raw bit pattern (floating-point formatting) and return `""` there — those
two cases, like every case of this function, are unreachable from
`getString` because the trait guard fails at reference types (see
`getString` below). Non-numeric alternatives are never passed to this
branch by the guard. -/
def numericToString : ValueType → String
  | .int8 v => toString v
  | .uint8 v => toString v
  | .int16 v => toString v
  | .uint16 v => toString v
  | .int32 v => toString v
  | .uint32 v => toString v
  | .int64 v => toString v
  | .uint64 v => toString v
  | .float32 _ => ("")
  | .float64 _ => ("")
  | _ => ("")

/-- Payload of the `bool` alternative; only consulted under the
`IsMetadataBoolean` guard. -/
def booleanPayload : ValueType → Bool
  | .boolean v => v
  | _ => false

/-- Payload of the `std::string_view` alternative (the viewed characters,
which `std::string(arg)` copies verbatim); only consulted under the
`IsMetadataString` guard. -/
def stringPayload : ValueType → String
  | .string s => s
  | _ => ("")

/-- Embedding of `getString(const ValueType& value, const std::string&
defaultValue)` from CesiumMetadataImpl.h lines 43-57.

The body is `std::visit(lambda, value)`. Since `value` is a `const
ValueType&`, `std::visit` invokes the lambda with the active alternative as
a `const A&` lvalue, so the generic parameter `auto&& arg` binds with
`decltype(arg) = const A&`, and the lambda's local alias is `using T =
decltype(arg) = const A&` (there is no `std::decay_t` / `remove_reference`
in this source). The `if constexpr` chain then tests the three CesiumGltf
traits at that reference type `T`; each branch that survives for the
instantiation at alternative `A` computes as in the corresponding helper
above, and the trailing `return defaultValue;` handles the rest. -/
def getString (value : ValueType) (defaultValue : String) : String :=
  let T : CppTy := .constRef (valueVariantTy value)
  if isMetadataNumeric T then numericToString value
  else if isMetadataBoolean T then
    (if booleanPayload value then ("true") else ("false"))
  else if isMetadataString T then stringPayload value
  else defaultValue

/-- At every alternative of `ValueType`, the type `T = const A&` at which
the visit lambda is instantiated fails all three trait tests (the traits
are specialized only at bare value types), so every instantiation of the
lambda reduces to `return defaultValue;`. -/
theorem getString_eq_defaultValue (v : ValueType) (d : String) :
    getString v d = d := by
  cases v <;> rfl

/-- The twelve element types, in the order they appear in the scalar block
of the `ValueType` variant (and again in its array block, and in
`PropertyType`). -/
def elemOrder : List ElemTy :=
  [.int8_t, .uint8_t, .int16_t, .uint16_t, .int32_t, .uint32_t,
   .int64_t, .uint64_t, .float_t, .double_t, .bool_t, .string_view_t]

/-- The alternatives of the `ValueType` variant, verbatim in declaration
order (header lines 16-41): `std::monostate`, the twelve scalar encodings,
then `CesiumGltf::MetadataArrayView` of each of the twelve. -/
def valueAlternatives : List CppTy :=
  [.monostate,
   .scalar .int8_t, .scalar .uint8_t, .scalar .int16_t, .scalar .uint16_t,
   .scalar .int32_t, .scalar .uint32_t, .scalar .int64_t, .scalar .uint64_t,
   .scalar .float_t, .scalar .double_t, .scalar .bool_t,
   .scalar .string_view_t,
   .metadataArrayView .int8_t, .metadataArrayView .uint8_t,
   .metadataArrayView .int16_t, .metadataArrayView .uint16_t,
   .metadataArrayView .int32_t, .metadataArrayView .uint32_t,
   .metadataArrayView .int64_t, .metadataArrayView .uint64_t,
   .metadataArrayView .float_t, .metadataArrayView .double_t,
   .metadataArrayView .bool_t, .metadataArrayView .string_view_t]

/-- The alternatives of the `PropertyType` variant, verbatim in declaration
order (header lines 59-84): `CesiumGltf::MetadataPropertyView<T>` for the
twelve scalar encodings and then for `MetadataArrayView` of each. -/
def propertyAlternatives : List CppTy :=
  [.metadataPropertyView (.scalar .int8_t),
   .metadataPropertyView (.scalar .uint8_t),
   .metadataPropertyView (.scalar .int16_t),
   .metadataPropertyView (.scalar .uint16_t),
   .metadataPropertyView (.scalar .int32_t),
   .metadataPropertyView (.scalar .uint32_t),
   .metadataPropertyView (.scalar .int64_t),
   .metadataPropertyView (.scalar .uint64_t),
   .metadataPropertyView (.scalar .float_t),
   .metadataPropertyView (.scalar .double_t),
   .metadataPropertyView (.scalar .bool_t),
   .metadataPropertyView (.scalar .string_view_t),
   .metadataPropertyView (.metadataArrayView .int8_t),
   .metadataPropertyView (.metadataArrayView .uint8_t),
   .metadataPropertyView (.metadataArrayView .int16_t),
   .metadataPropertyView (.metadataArrayView .uint16_t),
   .metadataPropertyView (.metadataArrayView .int32_t),
   .metadataPropertyView (.metadataArrayView .uint32_t),
   .metadataPropertyView (.metadataArrayView .int64_t),
   .metadataPropertyView (.metadataArrayView .uint64_t),
   .metadataPropertyView (.metadataArrayView .float_t),
   .metadataPropertyView (.metadataArrayView .double_t),
   .metadataPropertyView (.metadataArrayView .bool_t),
   .metadataPropertyView (.metadataArrayView .string_view_t)]

/-- The alternatives of the `FeatureIDAccessorType` variant, verbatim in
declaration order (header lines 86-93): `std::monostate`, then
`CesiumGltf::AccessorView<CesiumGltf::AccessorTypes::SCALAR<T>>` for
`int8_t`, `uint8_t`, `int16_t`, `uint16_t`, `uint32_t`, `float`. -/
def featureIDAlternatives : List CppTy :=
  [.monostate,
   .accessorViewScalar .int8_t, .accessorViewScalar .uint8_t,
   .accessorViewScalar .int16_t, .accessorViewScalar .uint16_t,
   .accessorViewScalar .uint32_t, .accessorViewScalar .float_t]

/-- Runtime values of the `FeatureIDAccessorType` union (one constructor
per alternative, in declaration order). Each constructed accessor carries
the scalar column it reads: signed columns as `List Int`, unsigned as
`List Nat`, and the float accessor as the list of 32-bit raw patterns. -/
inductive FeatureIDAccessorType where
  | monostate
  | int8Accessor (data : List Int)
  | uint8Accessor (data : List Nat)
  | int16Accessor (data : List Int)
  | uint16Accessor (data : List Nat)
  | uint32Accessor (data : List Nat)
  | floatAccessor (data : List Nat)
deriving DecidableEq, Repr

/-- The C++ type of the active alternative of a `FeatureIDAccessorType`
value. -/
def accessorVariantTy : FeatureIDAccessorType → CppTy
  | .monostate => .monostate
  | .int8Accessor _ => .accessorViewScalar .int8_t
  | .uint8Accessor _ => .accessorViewScalar .uint8_t
  | .int16Accessor _ => .accessorViewScalar .int16_t
  | .uint16Accessor _ => .accessorViewScalar .uint16_t
  | .uint32Accessor _ => .accessorViewScalar .uint32_t
  | .floatAccessor _ => .accessorViewScalar .float_t

/-- Modelled from the spec: the body of `loadMetadata` is not among the
sources (only its declaration, header lines 100-104, is), so the mapping
from a property's declared encoding tag to the `PropertyType` variant
constructed for it is modelled from the specification: "a one-to-one
mapping from declared tag to union variant constructed" over the 24
concrete encodings, every other tag matching no known variant. Tags are
modelled as strings (the scalar type names of the metadata extension, and
a combined tag for array-typed properties). -/
def propertyTagTable : List (String × CppTy) :=
  [(("INT8"), .metadataPropertyView (.scalar .int8_t)),
   (("UINT8"), .metadataPropertyView (.scalar .uint8_t)),
   (("INT16"), .metadataPropertyView (.scalar .int16_t)),
   (("UINT16"), .metadataPropertyView (.scalar .uint16_t)),
   (("INT32"), .metadataPropertyView (.scalar .int32_t)),
   (("UINT32"), .metadataPropertyView (.scalar .uint32_t)),
   (("INT64"), .metadataPropertyView (.scalar .int64_t)),
   (("UINT64"), .metadataPropertyView (.scalar .uint64_t)),
   (("FLOAT32"), .metadataPropertyView (.scalar .float_t)),
   (("FLOAT64"), .metadataPropertyView (.scalar .double_t)),
   (("BOOLEAN"), .metadataPropertyView (.scalar .bool_t)),
   (("STRING"), .metadataPropertyView (.scalar .string_view_t)),
   (("ARRAY_INT8"), .metadataPropertyView (.metadataArrayView .int8_t)),
   (("ARRAY_UINT8"), .metadataPropertyView (.metadataArrayView .uint8_t)),
   (("ARRAY_INT16"), .metadataPropertyView (.metadataArrayView .int16_t)),
   (("ARRAY_UINT16"), .metadataPropertyView (.metadataArrayView .uint16_t)),
   (("ARRAY_INT32"), .metadataPropertyView (.metadataArrayView .int32_t)),
   (("ARRAY_UINT32"), .metadataPropertyView (.metadataArrayView .uint32_t)),
   (("ARRAY_INT64"), .metadataPropertyView (.metadataArrayView .int64_t)),
   (("ARRAY_UINT64"), .metadataPropertyView (.metadataArrayView .uint64_t)),
   (("ARRAY_FLOAT32"), .metadataPropertyView (.metadataArrayView .float_t)),
   (("ARRAY_FLOAT64"), .metadataPropertyView (.metadataArrayView .double_t)),
   (("ARRAY_BOOLEAN"), .metadataPropertyView (.metadataArrayView .bool_t)),
   (("ARRAY_STRING"),
    .metadataPropertyView (.metadataArrayView .string_view_t))]

/-- Modelled from the spec: decode a property's declared encoding tag to
the `PropertyType` variant to construct; `none` when the tag matches no
known variant. -/
def tagToPropertyView (tag : String) : Option CppTy :=
  (propertyTagTable.find? (fun e => e.1 == tag)).map Prod.snd

/-- Modelled from the spec: the mapping from a primitive's declared
feature-ID component type to the `FeatureIDAccessorType` variant
constructed, covering exactly the six accessor alternatives. -/
def accessorTagTable : List (String × CppTy) :=
  [(("BYTE"), .accessorViewScalar .int8_t),
   (("UNSIGNED_BYTE"), .accessorViewScalar .uint8_t),
   (("SHORT"), .accessorViewScalar .int16_t),
   (("UNSIGNED_SHORT"), .accessorViewScalar .uint16_t),
   (("UNSIGNED_INT"), .accessorViewScalar .uint32_t),
   (("FLOAT"), .accessorViewScalar .float_t)]

/-- Modelled from the spec: decode a primitive's declared component-type
tag to the accessor variant to construct; `none` when it matches no known
variant. -/
def accessorTagToView (tag : String) : Option CppTy :=
  (accessorTagTable.find? (fun e => e.1 == tag)).map Prod.snd

/-- Modelled from the spec: one declared property of a feature table — a
name and a declared encoding tag. -/
structure PropertyDecl where
  name : String
  tag : String
deriving DecidableEq, Repr

/-- Modelled from the spec: one declared feature table — a name and its
declared properties. -/
structure FeatureTableDecl where
  name : String
  properties : List PropertyDecl
deriving DecidableEq, Repr

/-- Modelled from the spec: the parsed feature-metadata extension block
(`ExtensionModelExtFeatureMetadata`): the declared feature tables. -/
structure ModelMetadata where
  featureTables : List FeatureTableDecl
deriving DecidableEq, Repr

/-- Modelled from the spec: one primitive declaring a feature-ID attribute
— the source table name and the declared component type of the attribute's
accessor. -/
structure PrimitiveDecl where
  featureTableName : String
  componentTag : String
deriving DecidableEq, Repr

/-- Modelled from the spec: the decoded model (`CesiumGltf::Model`),
restricted to what the loader walks — the primitives declaring feature-ID
attributes, in declaration order. -/
structure Model where
  primitives : List PrimitiveDecl
deriving DecidableEq, Repr

/-- Modelled from the spec: construct the Property View for one declared
property — the (name, selected variant) entry, or `none` (skip) when the
tag matches no known variant. -/
def mkProperty (p : PropertyDecl) : Option (String × CppTy) :=
  (tagToPropertyView p.tag).map (fun e => (p.name, e))

/-- Modelled from the spec: construct the Feature-ID Accessor for one
primitive — the (table-name, accessor variant) pair, or `none` (skip) when
the component tag matches no known variant. -/
def mkAccessor (pr : PrimitiveDecl) : Option (String × CppTy) :=
  (accessorTagToView pr.componentTag).map (fun e => (pr.featureTableName, e))

/-- The two collections owned by `CesiumMetadataImpl` (header lines
106-112): `_featureTables`, a mapping from table name to a mapping from
property name to `PropertyType` (the unordered maps are embedded as
association lists keyed by the unique names), and `_featureIDs`, the
ordered list of (table-name, `FeatureIDAccessorType`) pairs. The stored
variants are represented by their alternative types. -/
structure CesiumMetadataImpl where
  featureTables : List (String × List (String × CppTy))
  featureIDs : List (String × CppTy)
deriving DecidableEq, Repr

/-- Modelled from the spec: `loadMetadata(model, modelMetadata)` (declared
at header lines 100-104; its body is not among the sources). For every
declared feature table it builds the inner name-to-Property-View mapping,
skipping properties whose tag matches no known variant; for every
primitive declaring a feature-ID attribute it appends the (table-name,
accessor) pair in primitive traversal order, skipping unknown component
tags. It has no failure return: the result is the fully populated state. -/
def loadMetadata (model : Model) (modelMetadata : ModelMetadata) :
    CesiumMetadataImpl :=
  { featureTables := modelMetadata.featureTables.map
      (fun t => (t.name, t.properties.filterMap mkProperty))
  , featureIDs := model.primitives.filterMap mkAccessor }

/-- Every Property View the tag decoder can select is an alternative of
the `PropertyType` union. -/
theorem tagToPropertyView_mem_propertyAlternatives (s : String) (e : CppTy)
    (h : tagToPropertyView s = some e) : e ∈ propertyAlternatives := by
  have hall : ∀ x ∈ propertyTagTable, Prod.snd x ∈ propertyAlternatives := by
    decide
  unfold tagToPropertyView at h
  cases hf : propertyTagTable.find? (fun x => x.1 == s) with
  | none => rw [hf] at h; exact Option.noConfusion h
  | some x =>
      rw [hf] at h
      have h2 : Prod.snd x = e := Option.some.inj h
      exact h2 ▸ hall x (List.mem_of_find?_eq_some hf)

/-- Every accessor variant the component-tag decoder can select is an
alternative of the `FeatureIDAccessorType` union. -/
theorem accessorTagToView_mem_featureIDAlternatives (s : String) (e : CppTy)
    (h : accessorTagToView s = some e) : e ∈ featureIDAlternatives := by
  have hall : ∀ x ∈ accessorTagTable, Prod.snd x ∈ featureIDAlternatives := by
    decide
  unfold accessorTagToView at h
  cases hf : accessorTagTable.find? (fun x => x.1 == s) with
  | none => rw [hf] at h; exact Option.noConfusion h
  | some x =>
      rw [hf] at h
      have h2 : Prod.snd x = e := Option.some.inj h
      exact h2 ▸ hall x (List.mem_of_find?_eq_some hf)

/-- A `filterMap` keeps exactly the elements on which the function fires,
in their original order: it equals the `filterMap` of the `filter` by
firing. -/
theorem filterMap_eq_filterMap_filter {α β : Type} (f : α → Option β) :
    ∀ l : List α,
      l.filterMap f = (l.filter (fun a => (f a).isSome)).filterMap f := by
  intro l
  induction l with
  | nil => rfl
  | cons a l ih =>
      cases h : f a with
      | none =>
          simp [List.filter_cons, List.filterMap_cons, h, ih]
      | some b =>
          simp [List.filter_cons, List.filterMap_cons, h, ih]

/-- Claim C1: for every Value whose active variant is a numeric encoding
and every fallback d, `getString(value, d)` is claimed to return the
canonical decimal text of the stored number, independent of d. The code
does not: the visit lambda aliases `T = decltype(arg)`, which is the
reference type `const A&`, and the CesiumGltf traits are false at
reference types, so the numeric branch is discarded at every
instantiation and the function returns the fallback. Evaluated at the
failing input (a Value holding `int32_t` 7, fallback "fallback"): the
result is "fallback", not the decimal text "7". -/
theorem c1_getString_numeric_returns_fallback :
    getString (ValueType.int32 7) ("fallback") = ("fallback") ∧
    getString (ValueType.int32 7) ("fallback") ≠ ("7") := by
  decide

/-- Claim C2: for every Value whose active variant is one of the twelve
array encodings or the absent (monostate) state, and every fallback d
(including ""), `getString(value, d)` returns exactly d. Holds: every
instantiation of the visit lambda falls through to `return defaultValue`.
-/
theorem c2_getString_array_or_absent_returns_fallback
    (v : ValueType) (d : String) (_h : isArrayOrAbsent v = true) :
    getString v d = d :=
  getString_eq_defaultValue v d

/-- Witness for claim C2 at a concrete array-typed Value and at the absent
Value, with the empty fallback. -/
theorem c2_witness :
    (isArrayOrAbsent (ValueType.arrayFloat32 [3, 5]) = true ∧
      getString (ValueType.arrayFloat32 [3, 5]) ("") = ("")) ∧
    (isArrayOrAbsent ValueType.monostate = true ∧
      getString ValueType.monostate ("") = ("")) :=
  ⟨⟨by decide,
    c2_getString_array_or_absent_returns_fallback
      (ValueType.arrayFloat32 [3, 5]) ("") (by decide)⟩,
   ⟨by decide,
    c2_getString_array_or_absent_returns_fallback
      ValueType.monostate ("") (by decide)⟩⟩

/-- Claim C3: `getString` is claimed to return "true" for the Value
holding boolean true and "false" for boolean false, regardless of the
fallback. The code does not: `IsMetadataBoolean<const bool&>` is false, so
the boolean branch is discarded and the fallback is returned. Evaluated at
the failing inputs (boolean true and boolean false, fallback "fallback").
-/
theorem c3_getString_boolean_returns_fallback :
    getString (ValueType.boolean true) ("fallback") = ("fallback") ∧
    getString (ValueType.boolean true) ("fallback") ≠ ("true") ∧
    getString (ValueType.boolean false) ("fallback") = ("fallback") ∧
    getString (ValueType.boolean false) ("fallback") ≠ ("false") := by
  decide

/-- Claim C4: for a Value holding the string encoding, `getString` is
claimed to return the viewed characters verbatim. The code does not:
`IsMetadataString<const std::string_view&>` is false, so the string branch
is discarded and the fallback is returned. Evaluated at the failing input
(a Value viewing "pine", fallback "fallback"). -/
theorem c4_getString_string_returns_fallback :
    getString (ValueType.string ("pine")) ("fallback") = ("fallback") ∧
    getString (ValueType.string ("pine")) ("fallback") ≠ ("pine") := by
  decide

/-- Claim C5: `getString` is a total function over the entire Value union:
every one of the 24 concrete variants plus the absent state is an
alternative the dispatch covers, and for every value and fallback the
function returns some string — it is a pure function into `String` with no
error path. -/
theorem c5_getString_total :
    (∀ v : ValueType, valueVariantTy v ∈ valueAlternatives) ∧
    (∀ (v : ValueType) (d : String), ∃ s : String, getString v d = s) := by
  constructor
  · intro v
    cases v <;> simp [valueVariantTy, valueAlternatives]
  · intro v d
    exact ⟨getString v d, rfl⟩

/-- Witness for claim C5 at the absent Value. -/
theorem c5_witness :
    valueVariantTy ValueType.monostate ∈ valueAlternatives ∧
    ∃ s : String, getString ValueType.monostate ("x") = s :=
  ⟨c5_getString_total.1 ValueType.monostate,
   c5_getString_total.2 ValueType.monostate ("x")⟩

/-- Claim C6: the `ValueType` union is exactly the absent state followed by
24 concrete encodings — the twelve scalar element types (eight integer
widths, two float widths, bool, string) and an array view of each — and
the `PropertyType` union has exactly one alternative per concrete Value
encoding (the same 24, in order, one-to-one) and no absent state. -/
theorem c6_value_and_property_unions :
    valueAlternatives.length = 25 ∧
    valueAlternatives =
      CppTy.monostate ::
        (elemOrder.map CppTy.scalar ++
          elemOrder.map CppTy.metadataArrayView) ∧
    elemOrder.length = 12 ∧
    propertyAlternatives =
      valueAlternatives.tail.map CppTy.metadataPropertyView ∧
    propertyAlternatives.length = 24 ∧
    valueAlternatives.Nodup ∧
    propertyAlternatives.Nodup ∧
    CppTy.monostate ∉ propertyAlternatives := by
  decide

/-- Claim C7: the `FeatureIDAccessorType` union is exactly one monostate
(no-accessor) alternative plus six typed scalar reader alternatives, the
no-accessor state being a distinct variant: distinct from every
constructed accessor value (in particular from one whose column holds only
zeros, i.e. one that would return feature ID 0). -/
theorem c7_featureID_union_shape :
    featureIDAlternatives.length = 7 ∧
    featureIDAlternatives.head? = some CppTy.monostate ∧
    featureIDAlternatives.Nodup ∧
    CppTy.monostate ∉ featureIDAlternatives.tail ∧
    (∀ a : FeatureIDAccessorType,
      accessorVariantTy a ∈ featureIDAlternatives) ∧
    (∀ data : List Nat,
      FeatureIDAccessorType.uint32Accessor data ≠
        FeatureIDAccessorType.monostate) ∧
    (∀ a : FeatureIDAccessorType,
      a ≠ FeatureIDAccessorType.monostate →
        accessorVariantTy a ≠ CppTy.monostate) := by
  refine ⟨by decide, by decide, by decide, by decide, ?_, ?_, ?_⟩
  · intro a
    cases a <;> simp [accessorVariantTy, featureIDAlternatives]
  · intro data hcontra
    exact FeatureIDAccessorType.noConfusion hcontra
  · intro a ha
    cases a with
    | monostate => exact absurd rfl ha
    | int8Accessor d => exact fun hc => CppTy.noConfusion hc
    | uint8Accessor d => exact fun hc => CppTy.noConfusion hc
    | int16Accessor d => exact fun hc => CppTy.noConfusion hc
    | uint16Accessor d => exact fun hc => CppTy.noConfusion hc
    | uint32Accessor d => exact fun hc => CppTy.noConfusion hc
    | floatAccessor d => exact fun hc => CppTy.noConfusion hc

/-- Witness for claim C7: the unsigned-32-bit accessor over an all-zero
column (it would return feature ID 0) is distinct from the no-accessor
state. -/
theorem c7_witness :
    FeatureIDAccessorType.uint32Accessor [0, 0, 0] ≠
      FeatureIDAccessorType.monostate :=
  c7_featureID_union_shape.2.2.2.2.2.1 [0, 0, 0]

/-- Claim C8: `loadMetadata` has no failure return and always completes: a
property or accessor whose declared encoding tag matches no known variant
is silently omitted from the resulting table/list while subsequent
properties and primitives are still processed. Stated over an arbitrary
declaration with one unknown-tagged property between two blocks and one
unknown-tagged primitive between two blocks: the result is the fully
populated state with exactly those entries dropped. -/
theorem c8_loadMetadata_skips_unknown_and_continues
    (nm : String) (pre post : List PropertyDecl) (p : PropertyDecl)
    (pres posts : List PrimitiveDecl) (q : PrimitiveDecl)
    (hp : tagToPropertyView p.tag = none)
    (hq : accessorTagToView q.componentTag = none) :
    loadMetadata ⟨pres ++ q :: posts⟩ ⟨[⟨nm, pre ++ p :: post⟩]⟩ =
      ⟨[(nm, pre.filterMap mkProperty ++ post.filterMap mkProperty)],
        pres.filterMap mkAccessor ++ posts.filterMap mkAccessor⟩ := by
  simp [loadMetadata, List.filterMap_append, List.filterMap_cons, mkProperty,
    mkAccessor, hp, hq]

/-- Witness for claim C8: a table declaring a known property, an
unknown-tagged property, then another known property, alongside a
known-component primitive and an unknown-component primitive: loading
completes, drops exactly the unknown entries, and keeps the later known
property. -/
theorem c8_witness :
    loadMetadata
        ⟨[⟨("buildings"), ("UNSIGNED_INT")⟩, ⟨("trees"), ("DOUBLE")⟩]⟩
        ⟨[⟨("buildings"),
           [⟨("height"), ("FLOAT32")⟩, ⟨("bad"), ("VEC3")⟩,
            ⟨("name"), ("STRING")⟩]⟩]⟩ =
      ⟨[(("buildings"),
          [⟨("height"), ("FLOAT32")⟩].filterMap mkProperty ++
            [⟨("name"), ("STRING")⟩].filterMap mkProperty)],
        [⟨("buildings"), ("UNSIGNED_INT")⟩].filterMap mkAccessor ++
          List.filterMap mkAccessor []⟩ :=
  c8_loadMetadata_skips_unknown_and_continues ("buildings")
    [⟨("height"), ("FLOAT32")⟩] [⟨("name"), ("STRING")⟩]
    ⟨("bad"), ("VEC3")⟩
    [⟨("buildings"), ("UNSIGNED_INT")⟩] [] ⟨("trees"), ("DOUBLE")⟩
    (by decide) (by decide)

/-- Claim C9: the loader owns two collections of the specified shapes and
loading keeps them in shape: the outer collection is keyed by the declared
table names (one inner name-to-Property-View mapping per declared table,
every stored view an alternative of the `PropertyType` union), and the
feature-ID collection is the ordered list of (table-name, accessor) pairs
— exactly the accessors of the kept primitives, in declaration order (the
kept primitives are an order-preserving sublist of the declared ones). -/
theorem c9_owned_collections_shape (model : Model) (mm : ModelMetadata) :
    ((loadMetadata model mm).featureTables.map Prod.fst =
      mm.featureTables.map (fun t => t.name)) ∧
    (∀ t ∈ (loadMetadata model mm).featureTables,
      ∀ e ∈ t.2, e.2 ∈ propertyAlternatives) ∧
    (∀ e ∈ (loadMetadata model mm).featureIDs,
      e.2 ∈ featureIDAlternatives) ∧
    ((loadMetadata model mm).featureIDs =
      (model.primitives.filter
          (fun pr => Option.isSome (mkAccessor pr))).filterMap mkAccessor) ∧
    List.Sublist
      (model.primitives.filter (fun pr => Option.isSome (mkAccessor pr)))
      model.primitives := by
  refine ⟨?_, ?_, ?_, ?_, ?_⟩
  · simp [loadMetadata]
  · intro t ht e he
    simp only [loadMetadata, List.mem_map] at ht
    obtain ⟨td, _htd, rfl⟩ := ht
    simp only [List.mem_filterMap] at he
    obtain ⟨pd, _hpd, hmk⟩ := he
    unfold mkProperty at hmk
    cases hv : tagToPropertyView pd.tag with
    | none => rw [hv] at hmk; exact Option.noConfusion hmk
    | some c =>
        rw [hv] at hmk
        have h2 : (pd.name, c) = e := Option.some.inj hmk
        subst h2
        exact tagToPropertyView_mem_propertyAlternatives pd.tag c hv
  · intro e he
    simp only [loadMetadata, List.mem_filterMap] at he
    obtain ⟨pr, _hpr, hmk⟩ := he
    unfold mkAccessor at hmk
    cases hv : accessorTagToView pr.componentTag with
    | none => rw [hv] at hmk; exact Option.noConfusion hmk
    | some c =>
        rw [hv] at hmk
        have h2 : (pr.featureTableName, c) = e := Option.some.inj hmk
        subst h2
        exact accessorTagToView_mem_featureIDAlternatives pr.componentTag c hv
  · exact filterMap_eq_filterMap_filter mkAccessor model.primitives
  · exact List.filter_sublist model.primitives

/-- Witness for claim C9 at a concrete model: the kept primitives of a
two-primitive model (one known component tag, one unknown) form an
order-preserving sublist of the declared primitives. -/
theorem c9_witness :
    List.Sublist
      ((⟨[⟨("a"), ("UNSIGNED_INT")⟩, ⟨("b"), ("DOUBLE")⟩]⟩ :
          Model).primitives.filter
        (fun pr => Option.isSome (mkAccessor pr)))
      (⟨[⟨("a"), ("UNSIGNED_INT")⟩, ⟨("b"), ("DOUBLE")⟩]⟩ :
          Model).primitives :=
  (c9_owned_collections_shape
      ⟨[⟨("a"), ("UNSIGNED_INT")⟩, ⟨("b"), ("DOUBLE")⟩]⟩ ⟨[]⟩).2.2.2.2

/-- Claim C10: the concrete source encodings representable by a Feature-ID
Accessor are exactly signed/unsigned 8-bit, signed/unsigned 16-bit,
unsigned 32-bit integers and 32-bit float: every accessor value is either
the no-accessor state or has one of those six active variants, and the
signed 32-bit, both 64-bit integer, and 64-bit double accessor types are
not alternatives of the union. -/
theorem c10_featureID_encodings_exact :
    featureIDAlternatives.tail =
      [CppTy.accessorViewScalar .int8_t, CppTy.accessorViewScalar .uint8_t,
       CppTy.accessorViewScalar .int16_t, CppTy.accessorViewScalar .uint16_t,
       CppTy.accessorViewScalar .uint32_t,
       CppTy.accessorViewScalar .float_t] ∧
    CppTy.accessorViewScalar .int32_t ∉ featureIDAlternatives ∧
    CppTy.accessorViewScalar .int64_t ∉ featureIDAlternatives ∧
    CppTy.accessorViewScalar .uint64_t ∉ featureIDAlternatives ∧
    CppTy.accessorViewScalar .double_t ∉ featureIDAlternatives ∧
    (∀ a : FeatureIDAccessorType,
      a = FeatureIDAccessorType.monostate ∨
        accessorVariantTy a ∈ featureIDAlternatives.tail) := by
  refine ⟨by decide, by decide, by decide, by decide, by decide, ?_⟩
  intro a
  cases a with
  | monostate => exact Or.inl rfl
  | int8Accessor d =>
      exact Or.inr (by simp [accessorVariantTy, featureIDAlternatives])
  | uint8Accessor d =>
      exact Or.inr (by simp [accessorVariantTy, featureIDAlternatives])
  | int16Accessor d =>
      exact Or.inr (by simp [accessorVariantTy, featureIDAlternatives])
  | uint16Accessor d =>
      exact Or.inr (by simp [accessorVariantTy, featureIDAlternatives])
  | uint32Accessor d =>
      exact Or.inr (by simp [accessorVariantTy, featureIDAlternatives])
  | floatAccessor d =>
      exact Or.inr (by simp [accessorVariantTy, featureIDAlternatives])

/-- Witness for claim C10 at a concrete constructed accessor. -/
theorem c10_witness :
    FeatureIDAccessorType.floatAccessor [1] =
        FeatureIDAccessorType.monostate ∨
      accessorVariantTy (FeatureIDAccessorType.floatAccessor [1]) ∈
        featureIDAlternatives.tail :=
  c10_featureID_encodings_exact.2.2.2.2.2
    (FeatureIDAccessorType.floatAccessor [1])

end CesiumForUnityNative
